import Mathlib

/-!
Shallow embedding of the repository's constraint-based settings-selection
engine (the `constraints` crate) and of the `rtcp` crate's `get_padding`
helper, together with theorems settling the specification claims.

The selection engine itself is exercised by `src/constraints/src/algorithms/
select_settings/tests.rs`; the engine definitions below are modelled from
the specification (sections 3, 4.1-4.5), with every behavior that the
in-repository tests pin down (sequence-constraint membership semantics,
the narrowing of survivors to minimum ideal-distance before tie-breaking,
error message rendering) modelled so that those tests hold.
`get_padding` is translated directly from `src/rtcp/src/lib.rs`.

Numeric setting values (integers and floats; every float in the tests is
exactly representable) are embedded as executable fractions with an `Int`
numerator and a positive `Nat` denominator, compared by cross
multiplication.
-/

namespace WebrtcSpec

/-- An executable fraction: numerator and (positive) denominator. All
comparisons go through cross multiplication, so representations need not
be normalized. -/
structure Frac where
  num : Int
  den : Nat
deriving DecidableEq

/-- The fraction zero. -/
def fzero : Frac := ⟨0, 1⟩

/-- The fraction one. -/
def fone : Frac := ⟨1, 1⟩

/-- Numeric equality of fractions, by cross multiplication. -/
def feq (a b : Frac) : Bool := a.num * (b.den : Int) == b.num * (a.den : Int)

/-- Numeric strict order on fractions, by cross multiplication. -/
def flt (a b : Frac) : Bool := a.num * (b.den : Int) < b.num * (a.den : Int)

/-- Fraction addition. -/
def fadd (a b : Frac) : Frac := ⟨a.num * b.den + b.num * a.den, a.den * b.den⟩

/-- Fraction subtraction. -/
def fsub (a b : Frac) : Frac := ⟨a.num * b.den - b.num * a.den, a.den * b.den⟩

/-- Fraction absolute value. -/
def fabs (a : Frac) : Frac := ⟨(a.num.natAbs : Int), a.den⟩

/-- Fraction division; division by zero yields zero. -/
def fdiv (a b : Frac) : Frac :=
  if b.num < 0 then ⟨-(a.num * b.den), a.den * b.num.natAbs⟩
  else if b.num = 0 then fzero
  else ⟨a.num * b.den, a.den * b.num.natAbs⟩

/-- Fraction maximum. -/
def fmax (a b : Frac) : Frac := if flt a b then b else a

/-- Fraction minimum. -/
def fmin (a b : Frac) : Frac := if flt b a then b else a

/-- Modelled from the spec: a settings/constraint value is a closed sum of
string, number (integers and floats, embedded as fractions) and boolean.
The repository's enum-like values (facing mode, resize mode) are carried
as their canonical strings. -/
inductive Value where
  | str (s : String)
  | num (q : Frac)
  | boolean (b : Bool)
deriving DecidableEq

/-- Value equality: numbers compare numerically, everything else
structurally. -/
def valueEq : Value → Value → Bool
  | .num a, .num b => feq a b
  | a, b => decide (a = b)

/-- Modelled from the spec: a read-only property-to-value mapping for one
candidate (`MediaTrackSettings`), as an association list. -/
abbrev MediaTrackSettings := List (String × Value)

/-- First-match lookup in a settings association list. -/
def getValue : MediaTrackSettings → String → Option Value
  | [], _ => none
  | (q, v) :: rest, p => if q = p then some v else getValue rest p

/-- Modelled from the spec: the tagged constraint variants
`Value{exact?, ideal?}`, `Range{min?, max?, exact?, ideal?}` and
`Sequence{exact?, ideal?}`. -/
inductive Constraint where
  | value (ex ideal : Option Value)
  | range (mn mx ex ideal : Option Frac)
  | sequence (ex ideal : Option (List Value))
deriving DecidableEq

/-- Structural reason of a constraint violation. -/
inductive Reason where
  | mismatch
  | tooSmall
  | tooLarge
deriving DecidableEq

/-- Fitness verdict of one candidate against one constraint. -/
inductive Verdict where
  | satisfied
  | missing
  | mismatch (r : Reason)
deriving DecidableEq

/-- Modelled from the spec (4.1): per-(settings, property, constraint)
verdict. A constraint with no required bound (no exact/min/max) is always
satisfied: ideal hints never filter. Sequence `exact` uses membership of
the candidate's value in the sequence, as pinned by the repository's
`constrained::exact::value_sequence` test. -/
def evaluate (s : MediaTrackSettings) (p : String) (c : Constraint) : Verdict :=
  match c with
  | .value ex _ =>
    match ex with
    | none => .satisfied
    | some v =>
      match getValue s p with
      | none => .missing
      | some a => if valueEq a v then .satisfied else .mismatch .mismatch
  | .range mn mx ex _ =>
    match mn, mx, ex with
    | none, none, none => .satisfied
    | _, _, _ =>
      match getValue s p with
      | none => .missing
      | some a =>
        match a with
        | .num q =>
          match ex with
          | some e => if feq q e then .satisfied else .mismatch .mismatch
          | none =>
            match mn with
            | some m =>
              if flt q m then .mismatch .tooSmall
              else
                match mx with
                | some hi => if flt hi q then .mismatch .tooLarge else .satisfied
                | none => .satisfied
            | none =>
              match mx with
              | some hi => if flt hi q then .mismatch .tooLarge else .satisfied
              | none => .satisfied
        | _ => .mismatch .mismatch
  | .sequence ex _ =>
    match ex with
    | none => .satisfied
    | some seq =>
      match getValue s p with
      | none => .missing
      | some a => if seq.any (valueEq a) then .satisfied else .mismatch .mismatch

/-- Boolean form of a Satisfied verdict, used by the filter stages. -/
def isSatisfied (s : MediaTrackSettings) (p : String) (c : Constraint) : Bool :=
  match evaluate s p c with
  | .satisfied => true
  | _ => false

/-- Canonical textual form of a fraction value: integers render without a
denominator. -/
def renderNum (q : Frac) : String :=
  if q.den = 1 then toString q.num else toString q.num ++ "/" ++ toString q.den

/-- Modelled from the spec (4.2): canonical textual form of a value, used
in the Overconstrained error's actual-values listing. -/
def renderValue : Value → String
  | .str s => "\"" ++ s ++ "\""
  | .num q => renderNum q
  | .boolean b => if b then "true" else "false"

/-- Lexicographic strict order on character lists, by code point. -/
def charListLt : List Char → List Char → Bool
  | [], [] => false
  | [], _ :: _ => true
  | _ :: _, [] => false
  | a :: as, b :: bs =>
    if a.toNat < b.toNat then true
    else if b.toNat < a.toNat then false
    else charListLt as bs

/-- Lexicographic strict order on strings, by code point. -/
def strLt (a b : String) : Bool := charListLt a.data b.data

/-- Insert a string into a lexicographically sorted list, dropping exact
duplicates. -/
def insertSorted (x : String) : List String → List String
  | [] => [x]
  | y :: ys =>
    if x = y then y :: ys
    else if strLt x y then x :: y :: ys
    else y :: insertSorted x ys

/-- Lexicographic sort with deduplication, by rendered text. -/
def sortDedup : List String → List String
  | [] => []
  | x :: xs => insertSorted x (sortDedup xs)

/-- Modelled from the spec (4.2): the actual-values listing of an
Overconstrained error: values of the property over the pre-failure
survivors (absent properties excluded), rendered, deduplicated, and
sorted lexicographically by the rendered text. -/
def renderedActuals (surv : List MediaTrackSettings) (p : String) : List String :=
  sortDedup ((surv.filterMap fun s => getValue s p).map renderValue)

/-- Modelled from the spec (4.2): the single, structurally determined
reason of a failing constraint: mismatch for value/sequence (and range
exact) failures, too-small for a range with a min bound, too-large for a
range with only a max bound. -/
def constraintReason : Constraint → Reason
  | .value _ _ => .mismatch
  | .sequence _ _ => .mismatch
  | .range mn mx ex _ =>
    match ex, mn, mx with
    | some _, _, _ => .mismatch
    | none, some _, _ => .tooSmall
    | none, none, some _ => .tooLarge
    | none, none, none => .mismatch

/-- Reason phrase used inside the error message. -/
def reasonPhrase : Reason → String
  | .mismatch => "a mismatch"
  | .tooSmall => "too small"
  | .tooLarge => "too large"

/-- Modelled from the spec (4.2): rendering of the dominant bound of a
constraint for the error message. -/
def describeConstraint : Constraint → String
  | .value (some v) _ => "x == " ++ renderValue v
  | .value none _ => "x"
  | .range _ _ (some e) _ => "x == " ++ renderNum e
  | .range (some m) (some hi) none _ => renderNum m ++ " <= x <= " ++ renderNum hi
  | .range (some m) none none _ => renderNum m ++ " <= x"
  | .range none (some hi) none _ => "x <= " ++ renderNum hi
  | .range none none none _ => "x"
  | .sequence (some seq) _ =>
    "x == [" ++ String.intercalate ", " (seq.map renderValue) ++ "]"
  | .sequence none _ => "x"

/-- The one structured error of the engine: offending property plus a
rendered diagnostic message (and its structural reason). -/
structure OverconstrainedError where
  constraint : String
  reason : Reason
  message : String
deriving DecidableEq

/-- Modelled from the spec (4.2): construction of the Overconstrained
error for property `p`, failing constraint `c`, from the survivors as
they stood before applying `c`. -/
def mkOverconstrainedError (p : String) (c : Constraint)
    (surv : List MediaTrackSettings) : OverconstrainedError :=
  { constraint := p
    reason := constraintReason c
    message :=
      "Setting was " ++ reasonPhrase (constraintReason c) ++ " ([" ++
        String.intercalate ", " (renderedActuals surv p) ++
        "] do not satisfy (" ++ describeConstraint c ++ "))." }

/-- Modelled from the spec (4.2): the mandatory (hard) filter. Constraints
are folded in insertion order over a survivor subsequence initially equal
to the whole candidate list; the first constraint whose application would
empty the survivors aborts with an Overconstrained error and later
constraints are not evaluated. -/
def applyMandatory :
    List MediaTrackSettings → List (String × Constraint) →
      Except OverconstrainedError (List MediaTrackSettings)
  | survivors, [] => .ok survivors
  | survivors, (p, c) :: rest =>
    if (survivors.filter fun s => isSatisfied s p c).isEmpty then
      .error (mkOverconstrainedError p c survivors)
    else
      applyMandatory (survivors.filter fun s => isSatisfied s p c) rest

/-- A candidate satisfies every constraint of an advanced entry. -/
def matchesAll (s : MediaTrackSettings) (set : List (String × Constraint)) : Bool :=
  set.all fun pc => isSatisfied s pc.1 pc.2

/-- Modelled from the spec (4.3): the advanced (soft) filter. Ordered,
greedy and infallible: an entry matching no current survivor is skipped,
a matching entry replaces the survivor set for all later entries. -/
def applyAdvanced :
    List MediaTrackSettings → List (List (String × Constraint)) →
      List MediaTrackSettings
  | survivors, [] => survivors
  | survivors, set :: rest =>
    if (survivors.filter fun s => matchesAll s set).isEmpty then
      applyAdvanced survivors rest
    else
      applyAdvanced (survivors.filter fun s => matchesAll s set) rest

/-- Modelled from the spec (4.1): ideal-distance between an actual value
and an ideal value. Numeric pairs use the normalized relative distance
with the two zero special cases; other pairs are 0 when equal and 1
otherwise. -/
def valueDistance (actual ideal : Value) : Frac :=
  match actual, ideal with
  | .num a, .num b =>
    if a.num = 0 ∧ b.num = 0 then fzero
    else if a.num = 0 ∨ b.num = 0 then fone
    else fdiv (fabs (fsub a b)) (fmax (fabs a) (fabs b))
  | a, b => if valueEq a b then fzero else fone

/-- Modelled from the spec (4.1): per-constraint ideal-distance
contribution of one candidate: 0 without an ideal hint or when the
property is absent; sequence ideals score 0 on membership. -/
def constraintDistance (s : MediaTrackSettings) (p : String) (c : Constraint) : Frac :=
  match c with
  | .value _ ideal =>
    match ideal, getValue s p with
    | some i, some a => valueDistance a i
    | _, _ => fzero
  | .range _ _ _ ideal =>
    match ideal, getValue s p with
    | some i, some a => valueDistance a (.num i)
    | _, _ => fzero
  | .sequence _ ideal =>
    match ideal, getValue s p with
    | some seq, some a => if seq.any (valueEq a) then fzero else fone
    | _, _ => fzero

/-- Aggregate ideal-distance of a candidate over a mandatory constraint
set (sum of per-constraint contributions). -/
def settingsFitness (s : MediaTrackSettings)
    (cs : List (String × Constraint)) : Frac :=
  cs.foldl (fun acc pc => fadd acc (constraintDistance s pc.1 pc.2)) fzero

/-- Modelled from the spec (4.1/4.4): aggregate distance from a candidate
to a target settings object, summed over the target's properties
restricted to the supported set. A property absent on the candidate
contributes 0. -/
def idealDistance (target : MediaTrackSettings) (supported : List String)
    (s : MediaTrackSettings) : Frac :=
  (target.filter fun pv => supported.contains pv.1).foldl
    (fun acc pv =>
      fadd acc
        (match getValue s pv.1 with
        | none => fzero
        | some a => valueDistance a pv.2)) fzero

/-- Modelled from the spec (4.4): the pluggable tie-breaking policies,
first-wins (`SelectFirstSettingsPolicy`) and minimum ideal distance
(`SelectIdealSettingsPolicy`, carrying a target and the supported set). -/
inductive TieBreakingPolicy where
  | first
  | ideal (target : MediaTrackSettings) (supported : List String)

/-- Modelled from the spec (4.4): break the tie among survivors. The
ideal policy returns the earliest survivor of minimal distance. -/
def tieBreak : TieBreakingPolicy → List MediaTrackSettings → Option MediaTrackSettings
  | .first, l => l.head?
  | .ideal _ _, [] => none
  | .ideal t sup, x :: xs =>
    some (xs.foldl
      (fun best y =>
        if flt (idealDistance t sup y) (idealDistance t sup best) then y
        else best)
      x)

/-- Narrow a candidate list to the candidates attaining the minimum of
`f`, preserving order; pinned by the repository's `constrained::ideal`
tests, which show that ideal hints on mandatory constraints narrow the
pool handed to the tie-breaker to the minimum-distance candidates. -/
def select_optimal_candidates (f : MediaTrackSettings → Frac)
    (l : List MediaTrackSettings) : List MediaTrackSettings :=
  match l with
  | [] => []
  | x :: xs =>
    (x :: xs).filter fun s =>
      feq (f s) (xs.foldl (fun acc y => fmin acc (f y)) (f x))

/-- Sanitized constraints: mandatory set plus ordered advanced entries. -/
structure SanitizedMediaTrackConstraints where
  mandatory : List (String × Constraint)
  advanced : List (List (String × Constraint))
deriving DecidableEq

/-- Modelled from the spec (6): the sanitization layer drops constraints
on unsupported properties and advanced entries left empty by that
removal. -/
def to_sanitized (supported : List String)
    (mandatory : List (String × Constraint))
    (advanced : List (List (String × Constraint))) :
    SanitizedMediaTrackConstraints :=
  { mandatory := mandatory.filter fun pc => supported.contains pc.1
    advanced :=
      (advanced.map fun set => set.filter fun pc => supported.contains pc.1).filter
        fun set => !set.isEmpty }

/-- Modelled from the spec (4.5): orchestration. Mandatory filter (early
Overconstrained error), then the advanced filter, then narrowing to the
minimum mandatory ideal-distance, then the tie-breaking policy. Returns
`none` only when the survivor pool is empty (empty candidates with no
mandatory constraints). -/
def select_settings (cands : List MediaTrackSettings)
    (constraints : SanitizedMediaTrackConstraints)
    (policy : TieBreakingPolicy) :
    Except OverconstrainedError (Option MediaTrackSettings) :=
  match applyMandatory cands constraints.mandatory with
  | .error e => .error e
  | .ok surv =>
    .ok (tieBreak policy
      (select_optimal_candidates
        (fun s => settingsFitness s constraints.mandatory)
        (applyAdvanced surv constraints.advanced)))

/-- Modelled from the spec (6): a constraint of the interchange layer is
either a bare value or a structured constraint. -/
inductive BareOrMediaTrackConstraint where
  | bare (v : Value)
  | constraint (c : Constraint)

/-- Modelled from the spec (6): the resolution layer turns bare values
into structured constraints: bare values resolve to an ideal bound in the
mandatory set and to an exact bound in advanced entries; numeric bare
values resolve to range constraints, others to value constraints. -/
def resolveBare (toIdeal : Bool) : BareOrMediaTrackConstraint → Constraint
  | .constraint c => c
  | .bare (.num q) =>
    if toIdeal then .range none none none (some q) else .range none none (some q) none
  | .bare v =>
    if toIdeal then .value none (some v) else .value (some v) none

/-- Resolve a bare-or mandatory constraint set. -/
def to_resolved_mandatory
    (l : List (String × BareOrMediaTrackConstraint)) :
    List (String × Constraint) :=
  l.map fun pc => (pc.1, resolveBare true pc.2)

/-- Resolve bare-or advanced constraint entries. -/
def to_resolved_advanced
    (l : List (List (String × BareOrMediaTrackConstraint))) :
    List (List (String × Constraint)) :=
  l.map fun set => set.map fun pc => (pc.1, resolveBare false pc.2)

/-- Property key of the device identifier. -/
def deviceIdKey : String := "deviceId"

/-- Property key of the group identifier. -/
def groupIdKey : String := "groupId"

/-- Property key of the aspect proportion. -/
def aspectKey : String := "aspectRatio"

/-- Property key of the facing mode. -/
def facingModeKey : String := "facingMode"

/-- Property key of the frame rate. -/
def frameRateKey : String := "frameRate"

/-- Property key of the width. -/
def widthKey : String := "width"

/-- Property key of the height. -/
def heightKey : String := "height"

/-- Property key of the resize mode. -/
def resizeModeKey : String := "resizeMode"

/-- All property keys of the test fixtures' supported-constraints set. -/
def all_properties : List String :=
  [deviceIdKey, groupIdKey, aspectKey, facingModeKey, frameRateKey,
   widthKey, heightKey, resizeModeKey]

/-- The `VIDEO_IDEAL` tie-breaking target of the tests (aspect 0.5625 is
the exact fraction 9/16). -/
def video_ideal : MediaTrackSettings :=
  [(aspectKey, .num ⟨9, 16⟩), (facingModeKey, .str "user"),
   (frameRateKey, .num ⟨60, 1⟩), (widthKey, .num ⟨1920, 1⟩),
   (heightKey, .num ⟨1080, 1⟩), (resizeModeKey, .str "none")]

/-- The `VIDEO_480P` candidate of the tests. -/
def video_480p : MediaTrackSettings :=
  [(deviceIdKey, .str "480p"), (groupIdKey, .str "builtin"),
   (aspectKey, .num ⟨9, 16⟩), (facingModeKey, .str "user"),
   (frameRateKey, .num ⟨240, 1⟩), (widthKey, .num ⟨720, 1⟩),
   (heightKey, .num ⟨480, 1⟩), (resizeModeKey, .str "crop-and-scale")]

/-- The `VIDEO_720P` candidate of the tests. -/
def video_720p : MediaTrackSettings :=
  [(deviceIdKey, .str "720p"), (groupIdKey, .str "builtin"),
   (aspectKey, .num ⟨9, 16⟩), (facingModeKey, .str "user"),
   (frameRateKey, .num ⟨120, 1⟩), (widthKey, .num ⟨1280, 1⟩),
   (heightKey, .num ⟨720, 1⟩), (resizeModeKey, .str "crop-and-scale")]

/-- The `VIDEO_1080P` candidate of the tests. -/
def video_1080p : MediaTrackSettings :=
  [(deviceIdKey, .str "1080p"), (groupIdKey, .str "builtin"),
   (aspectKey, .num ⟨9, 16⟩), (facingModeKey, .str "user"),
   (frameRateKey, .num ⟨60, 1⟩), (widthKey, .num ⟨1920, 1⟩),
   (heightKey, .num ⟨1080, 1⟩), (resizeModeKey, .str "none")]

/-- The `VIDEO_1440P` candidate of the tests. -/
def video_1440p : MediaTrackSettings :=
  [(deviceIdKey, .str "1440p"), (groupIdKey, .str "builtin"),
   (aspectKey, .num ⟨9, 16⟩), (facingModeKey, .str "user"),
   (frameRateKey, .num ⟨30, 1⟩), (widthKey, .num ⟨2560, 1⟩),
   (heightKey, .num ⟨1440, 1⟩), (resizeModeKey, .str "none")]

/-- The `VIDEO_2160P` candidate of the tests. -/
def video_2160p : MediaTrackSettings :=
  [(deviceIdKey, .str "2160p"), (groupIdKey, .str "builtin"),
   (aspectKey, .num ⟨9, 16⟩), (facingModeKey, .str "user"),
   (frameRateKey, .num ⟨15, 1⟩), (widthKey, .num ⟨3840, 1⟩),
   (heightKey, .num ⟨2160, 1⟩), (resizeModeKey, .str "none")]

/-- The five resolution-tier candidates, in the tests' order. -/
def default_possible_settings : List MediaTrackSettings :=
  [video_480p, video_720p, video_1080p, video_1440p, video_2160p]

/-- Translated from `src/rtcp/src/lib.rs`: the padding required to make
the length a multiple of 4. -/
def get_padding (len : Nat) : Nat :=
  if len % 4 = 0 then 0 else 4 - len % 4

/-- Candidate `a` of the three-candidate `constrained` test fixtures. -/
def gA : MediaTrackSettings := [(deviceIdKey, .str "a"), (groupIdKey, .str "group-0")]

/-- Candidate `b` of the three-candidate `constrained` test fixtures. -/
def gB : MediaTrackSettings := [(deviceIdKey, .str "b"), (groupIdKey, .str "group-1")]

/-- Candidate `c` of the three-candidate `constrained` test fixtures. -/
def gC : MediaTrackSettings := [(deviceIdKey, .str "c"), (groupIdKey, .str "group-2")]

/-- The three-candidate list of the `constrained` test fixtures. -/
def groupCands : List MediaTrackSettings := [gA, gB, gC]

/-- The 480p candidate of the smoke tests. -/
def smoke_480p : MediaTrackSettings :=
  [(deviceIdKey, .str "480p"), (heightKey, .num ⟨480, 1⟩), (widthKey, .num ⟨720, 1⟩),
   (resizeModeKey, .str "crop-and-scale")]

/-- The 720p candidate of the smoke tests (also the tie-breaking target). -/
def smoke_720p : MediaTrackSettings :=
  [(deviceIdKey, .str "720p"), (heightKey, .num ⟨720, 1⟩), (widthKey, .num ⟨1280, 1⟩),
   (resizeModeKey, .str "crop-and-scale")]

/-- The 1080p candidate of the smoke tests (the expected winner). -/
def smoke_1080p : MediaTrackSettings :=
  [(deviceIdKey, .str "1080p"), (heightKey, .num ⟨1080, 1⟩), (widthKey, .num ⟨1920, 1⟩),
   (resizeModeKey, .str "none")]

/-- The 1440p candidate of the smoke tests. -/
def smoke_1440p : MediaTrackSettings :=
  [(deviceIdKey, .str "1440p"), (heightKey, .num ⟨1440, 1⟩), (widthKey, .num ⟨2560, 1⟩),
   (resizeModeKey, .str "none")]

/-- The 2160p candidate of the smoke tests. -/
def smoke_2160p : MediaTrackSettings :=
  [(deviceIdKey, .str "2160p"), (heightKey, .num ⟨2160, 1⟩), (widthKey, .num ⟨3840, 1⟩),
   (resizeModeKey, .str "none")]

/-- The candidate list of the smoke tests. -/
def smoke_settings : List MediaTrackSettings :=
  [smoke_480p, smoke_720p, smoke_1080p, smoke_1440p, smoke_2160p]

/-- The smoke tests' supported-constraints set (frame rate unsupported). -/
def smoke_supported : List String := [deviceIdKey, heightKey, widthKey, resizeModeKey]

/-- The directly constructed mandatory constraints of the native smoke
test: width at most 2560, height at most 1440, and an unsupported frame
rate bound. -/
def native_mandatory : List (String × Constraint) :=
  [(widthKey, .range none (some ⟨2560, 1⟩) none none),
   (heightKey, .range none (some ⟨1440, 1⟩) none none),
   (frameRateKey, .range none (some ⟨30, 1⟩) none none)]

/-- The directly constructed advanced constraints of the native smoke
test: an exact height of 800 (matching nothing), then resize mode none. -/
def native_advanced : List (List (String × Constraint)) :=
  [[(heightKey, .range none none (some ⟨800, 1⟩) none)],
   [(resizeModeKey, .value (some (.str "none")) none)]]

/-- The interchange-encoded mandatory constraints of the JSON smoke test,
with the frame rate given as a bare value. -/
def json_mandatory : List (String × BareOrMediaTrackConstraint) :=
  [(widthKey, .constraint (.range none (some ⟨2560, 1⟩) none none)),
   (heightKey, .constraint (.range none (some ⟨1440, 1⟩) none none)),
   (frameRateKey, .bare (.num ⟨30, 1⟩))]

/-- The interchange-encoded advanced constraints of the JSON smoke test,
with both entries given as bare values. -/
def json_advanced : List (List (String × BareOrMediaTrackConstraint)) :=
  [[(heightKey, .bare (.num ⟨800, 1⟩))], [(resizeModeKey, .bare (.str "none"))]]

/-- Candidate `a` of the three-candidate frame-rate test fixtures. -/
def rA : MediaTrackSettings := [(deviceIdKey, .str "a"), (frameRateKey, .num ⟨15, 1⟩)]

/-- Candidate `b` of the three-candidate frame-rate test fixtures. -/
def rB : MediaTrackSettings := [(deviceIdKey, .str "b"), (frameRateKey, .num ⟨30, 1⟩)]

/-- Candidate `c` of the three-candidate frame-rate test fixtures. -/
def rC : MediaTrackSettings := [(deviceIdKey, .str "c"), (frameRateKey, .num ⟨60, 1⟩)]

/-- The three-candidate list of the frame-rate test fixtures. -/
def rCands : List MediaTrackSettings := [rA, rB, rC]

/-- A constraint carries only an ideal hint: no exact, min or max bound,
for each of the value, range and sequence kinds. -/
def isIdealOnly : Constraint → Bool
  | .value none _ => true
  | .range none none none _ => true
  | .sequence none _ => true
  | _ => false

/-- Claim C1: in the mandatory filter, constraints are evaluated in
insertion order over a survivor set initially equal to the whole candidate
sequence; whenever a prefix of the constraint set succeeds with survivors
`surv`, those survivors are a subsequence of the candidates (original
relative order preserved), and if the next constraint would empty `surv`
then that constraint is blamed in an Overconstrained error built from the
pre-failure survivors, independently of all later mandatory constraints
(which are therefore never evaluated). -/
theorem mandatory_filter_order_and_blame (cs : List (String × Constraint)) :
    ∀ cands surv, applyMandatory cands cs = .ok surv →
      surv.Sublist cands ∧
      ∀ p c rest, (surv.filter fun s => isSatisfied s p c) = [] →
        applyMandatory cands (cs ++ (p, c) :: rest) =
          .error (mkOverconstrainedError p c surv) := by
  induction cs with
  | nil =>
    intro cands surv h
    simp only [applyMandatory, Except.ok.injEq] at h
    subst h
    refine ⟨List.Sublist.refl _, ?_⟩
    intro p c rest hempty
    simp [applyMandatory, hempty]
  | cons qd cs ih =>
    obtain ⟨q, d⟩ := qd
    intro cands surv h
    by_cases hne : ((cands.filter fun s => isSatisfied s q d).isEmpty : Bool)
    · rw [show applyMandatory cands ((q, d) :: cs) =
          .error (mkOverconstrainedError q d cands) from by
        simp only [applyMandatory, hne, if_true]] at h
      exact absurd h (by simp)
    · simp only [applyMandatory, hne, if_false, Bool.false_eq_true] at h
      obtain ⟨hsub, hblame⟩ := ih _ _ h
      refine ⟨hsub.trans (List.filter_sublist _), ?_⟩
      intro p c rest hempty
      have hrec := hblame p c rest hempty
      simp only [List.cons_append, applyMandatory, hne, if_false, Bool.false_eq_true]
      exact hrec

/-- Witness for C1 at the too-small scenario of the tests: the empty
prefix succeeds with all five candidates, and the min-1000 frame rate
constraint is blamed. -/
theorem mandatory_filter_order_and_blame_witness :
    applyMandatory default_possible_settings
        [(frameRateKey, Constraint.range (some ⟨1000, 1⟩) none none none)] =
      .error (mkOverconstrainedError frameRateKey
        (Constraint.range (some ⟨1000, 1⟩) none none none) default_possible_settings) :=
  (mandatory_filter_order_and_blame [] default_possible_settings default_possible_settings
      rfl).2 frameRateKey (Constraint.range (some ⟨1000, 1⟩) none none none) [] rfl

/-- Claim C2: the Overconstrained error produced when a single mandatory
constraint empties the survivor set blames that constraint's property,
and its reason is determined by the constraint's violated bound alone
(one reason per constraint instance): mismatch for value or sequence
exact failures, too-small for a range with only a min bound, too-large
for a range with only a max bound. -/
theorem overconstrained_reason_structural (cands : List MediaTrackSettings)
    (p : String) (c : Constraint) (e : OverconstrainedError)
    (h : applyMandatory cands [(p, c)] = .error e) :
    e.constraint = p ∧
    (∀ v i, c = .value (some v) i → e.reason = .mismatch) ∧
    (∀ sq i, c = .sequence (some sq) i → e.reason = .mismatch) ∧
    (∀ m i, c = .range (some m) none none i → e.reason = .tooSmall) ∧
    (∀ hi i, c = .range none (some hi) none i → e.reason = .tooLarge) := by
  have he : e = mkOverconstrainedError p c cands := by
    by_cases hne : ((cands.filter fun s => isSatisfied s p c).isEmpty : Bool)
    · simp only [applyMandatory, hne, if_true, Except.error.injEq] at h
      exact h.symm
    · simp only [applyMandatory, hne, if_false, Bool.false_eq_true] at h
      exact absurd h (by simp)
  subst he
  refine ⟨rfl, ?_, ?_, ?_, ?_⟩ <;> rintro _ _ rfl <;> rfl

/-- Witness for C2 at the too-small scenario of the tests. -/
theorem overconstrained_reason_structural_witness :
    (mkOverconstrainedError frameRateKey
        (Constraint.range (some ⟨1000, 1⟩) none none none)
        default_possible_settings).reason = .tooSmall :=
  (overconstrained_reason_structural default_possible_settings frameRateKey
      (Constraint.range (some ⟨1000, 1⟩) none none none)
      (mkOverconstrainedError frameRateKey
        (Constraint.range (some ⟨1000, 1⟩) none none none)
        default_possible_settings) rfl).2.2.2.1 ⟨1000, 1⟩ none rfl

/-- Claim C3: the Overconstrained message is exactly
`Setting was <reason-phrase> (<sorted actual values> do not satisfy
(<constraint description>)).`, with the actual values taken from the
pre-failure survivors, rendered, deduplicated and sorted lexicographically
by the rendered text; frame rates 240/120/60/30/15 against min 1000
render as `[120, 15, 240, 30, 60]`, and five candidates all carrying
`builtin` dedupe to `["builtin"]`. -/
theorem overconstrained_message_format :
    (∀ p c surv, (mkOverconstrainedError p c surv).message =
      "Setting was " ++ reasonPhrase (constraintReason c) ++ " ([" ++
        String.intercalate ", " (renderedActuals surv p) ++
        "] do not satisfy (" ++ describeConstraint c ++ "))." ) ∧
    applyMandatory default_possible_settings
        [(frameRateKey, .range (some ⟨1000, 1⟩) none none none)] =
      .error { constraint := frameRateKey, reason := .tooSmall,
               message := "Setting was too small ([120, 15, 240, 30, 60] do not satisfy (1000 <= x))." } ∧
    applyMandatory default_possible_settings
        [(groupIdKey, .value (some (.str "missing-group")) none)] =
      .error { constraint := groupIdKey, reason := .mismatch,
               message := "Setting was a mismatch ([\"builtin\"] do not satisfy (x == \"missing-group\"))." } :=
  ⟨fun _ _ _ => rfl, rfl, rfl⟩

/-- Claim C4: the advanced filter processes its entries greedily and
never fails: its output is always a subsequence of its input, a non-empty
input yields a non-empty output, an entry matching no current survivor is
skipped leaving the survivors unchanged, and an entry with a non-empty
match replaces the survivors for all later entries (so an earlier
narrowing is never undone). -/
theorem advanced_filter_greedy (sets : List (List (String × Constraint))) :
    ∀ survivors,
      (applyAdvanced survivors sets).Sublist survivors ∧
      (survivors ≠ [] → applyAdvanced survivors sets ≠ []) ∧
      ∀ set rest,
        ((survivors.filter fun s => matchesAll s set) = [] →
          applyAdvanced survivors (set :: rest) = applyAdvanced survivors rest) ∧
        ((survivors.filter fun s => matchesAll s set) ≠ [] →
          applyAdvanced survivors (set :: rest) =
            applyAdvanced (survivors.filter fun s => matchesAll s set) rest) := by
  have hstep : ∀ (survivors : List MediaTrackSettings) set rest,
      ((survivors.filter fun s => matchesAll s set) = [] →
        applyAdvanced survivors (set :: rest) = applyAdvanced survivors rest) ∧
      ((survivors.filter fun s => matchesAll s set) ≠ [] →
        applyAdvanced survivors (set :: rest) =
          applyAdvanced (survivors.filter fun s => matchesAll s set) rest) := by
    intro survivors set rest
    constructor
    · intro hempty
      simp [applyAdvanced, hempty]
    · intro hne
      simp [applyAdvanced, List.isEmpty_eq_false.mpr hne]
  induction sets with
  | nil =>
    intro survivors
    exact ⟨List.Sublist.refl _, fun h => h, hstep survivors⟩
  | cons set sets ih =>
    intro survivors
    refine ⟨?_, ?_, hstep survivors⟩
    · by_cases hne : ((survivors.filter fun s => matchesAll s set) = [])
      · rw [(hstep survivors set sets).1 hne]
        exact (ih survivors).1
      · rw [(hstep survivors set sets).2 hne]
        exact ((ih _).1).trans (List.filter_sublist _)
    · intro hsne
      by_cases hne : ((survivors.filter fun s => matchesAll s set) = [])
      · rw [(hstep survivors set sets).1 hne]
        exact (ih survivors).2.1 hsne
      · rw [(hstep survivors set sets).2 hne]
        exact (ih _).2.1 hne

/-- Witness for C4: a non-empty survivor list stays non-empty, and the
smoke test's first advanced entry (exact height 800), matching nothing,
is skipped. -/
theorem advanced_filter_greedy_witness :
    applyAdvanced smoke_settings native_advanced =
      applyAdvanced smoke_settings [[(resizeModeKey, .value (some (.str "none")) none)]] ∧
    applyAdvanced smoke_settings native_advanced ≠ [] :=
  ⟨(advanced_filter_greedy [[(resizeModeKey, .value (some (.str "none")) none)]]
      smoke_settings).2.2 [(heightKey, .range none none (some ⟨800, 1⟩) none)]
      [[(resizeModeKey, .value (some (.str "none")) none)]] |>.1 rfl,
    (advanced_filter_greedy native_advanced smoke_settings).2.1 (by decide)⟩

/-- Folding the minimum of constantly-zero fitness values stays zero. -/
theorem foldl_fmin_fzero (xs : List MediaTrackSettings) :
    xs.foldl (fun acc y => fmin acc (settingsFitness y [])) fzero = fzero := by
  induction xs with
  | nil => rfl
  | cons y ys ih => exact ih

/-- Claim C5: for every non-empty candidate sequence, selection with
empty mandatory and advanced constraint sets under the first-wins policy
returns the first candidate of the input sequence. -/
theorem unconstrained_first_policy (cands : List MediaTrackSettings)
    (h : cands ≠ []) :
    select_settings cands ⟨[], []⟩ .first = .ok (some (cands.head h)) := by
  cases cands with
  | nil => exact absurd rfl h
  | cons x xs =>
    show Except.ok (tieBreak .first
      (select_optimal_candidates (fun s => settingsFitness s []) (x :: xs))) =
      .ok (some x)
    have hmin : xs.foldl (fun acc y => fmin acc (settingsFitness y []))
        (settingsFitness x []) = fzero := foldl_fmin_fzero xs
    have hpool : select_optimal_candidates (fun s => settingsFitness s []) (x :: xs) =
        x :: xs := by
      show (x :: xs).filter (fun s => feq (settingsFitness s [])
        (xs.foldl (fun acc y => fmin acc (settingsFitness y [])) (settingsFitness x []))) =
        x :: xs
      rw [hmin]
      exact List.filter_eq_self.mpr fun a _ => rfl
    rw [hpool]
    rfl

/-- Witness for C5 at the five-candidate fixture list. -/
theorem unconstrained_first_policy_witness :
    select_settings default_possible_settings ⟨[], []⟩ .first = .ok (some video_480p) :=
  unconstrained_first_policy default_possible_settings (by decide)

/-- Claim C6: unconstrained selection under the ideal-distance policy,
with the `VIDEO_IDEAL` target and the five resolution-tier candidates,
returns the 1080p candidate (the one matching width, height, frame rate,
resize mode and aspect exactly), the first minimum-distance survivor. -/
theorem unconstrained_ideal_policy :
    select_settings default_possible_settings ⟨[], []⟩
        (.ideal video_ideal all_properties) = .ok (some video_1080p) ∧
    default_possible_settings.get? 2 = some video_1080p :=
  ⟨rfl, rfl⟩

/-- Counterexample to claim C7: a mandatory constraint carrying only an
ideal hint does change the outcome under the first-wins policy: on the
three-candidate fixture, an ideal group hint selects candidate `b`
although unconstrained selection returns the first candidate `a`. -/
theorem ideal_hint_first_policy_cex :
    select_settings groupCands
        ⟨[(groupIdKey, .value none (some (.str "group-1")))], []⟩ .first =
      .ok (some gB) ∧
    select_settings groupCands ⟨[], []⟩ .first = .ok (some gA) ∧
    gB ≠ gA :=
  ⟨rfl, rfl, by decide⟩

/-- Every candidate satisfies a constraint that carries only an ideal
hint: ideal hints never filter. -/
theorem isSatisfied_of_idealOnly (s : MediaTrackSettings) (p : String)
    (c : Constraint) (h : isIdealOnly c = true) : isSatisfied s p c = true := by
  cases c with
  | value ex ideal =>
    cases ex with
    | none => rfl
    | some v => exact Bool.noConfusion h
  | range mn mx ex ideal =>
    cases mn with
    | some m => exact Bool.noConfusion h
    | none =>
      cases mx with
      | some m => exact Bool.noConfusion h
      | none =>
        cases ex with
        | some e => exact Bool.noConfusion h
        | none => rfl
  | sequence ex ideal =>
    cases ex with
    | none => rfl
    | some v => exact Bool.noConfusion h

/-- Claim C7 as amended: a mandatory constraint carrying only an ideal
hint (no exact, min or max bound), of any of the value, range and
sequence kinds, removes no candidate in the mandatory satisfaction
filter (all candidates survive), but before tie-breaking the survivors
are narrowed to those of minimal ideal distance, so the first-wins
policy returns the first minimum-distance survivor, which need not be
the input's first candidate. -/
theorem ideal_hint_no_filtering (cands : List MediaTrackSettings) (p : String)
    (c : Constraint) (h : cands ≠ []) (hio : isIdealOnly c = true) :
    applyMandatory cands [(p, c)] = .ok cands ∧
    select_settings cands ⟨[(p, c)], []⟩ .first =
      .ok ((select_optimal_candidates
        (fun s => settingsFitness s [(p, c)]) cands).head?) := by
  have hfil : (cands.filter fun s => isSatisfied s p c) = cands :=
    List.filter_eq_self.mpr fun a _ => isSatisfied_of_idealOnly a p c hio
  have h1 : applyMandatory cands [(p, c)] = .ok cands := by
    simp only [applyMandatory, hfil]
    cases cands with
    | nil => exact absurd rfl h
    | cons x xs => rfl
  refine ⟨h1, ?_⟩
  simp only [select_settings, h1, applyAdvanced, tieBreak]

/-- Witness for C7 as amended, at all three ideal-only constraint kinds:
the value-kind group hint, the range-kind frame-rate hint of the
value_range test (ideal 32, where the minimum-distance narrowing then
makes the first-wins policy return the 30-fps candidate `b`), and a
sequence-kind hint. -/
theorem ideal_hint_no_filtering_witness :
    applyMandatory groupCands [(groupIdKey, .value none (some (.str "group-1")))] =
      .ok groupCands ∧
    applyMandatory rCands [(frameRateKey, .range none none none (some ⟨32, 1⟩))] =
      .ok rCands ∧
    applyMandatory groupCands
        [(groupIdKey, .sequence none (some [.str "group-1", .str "group-3"]))] =
      .ok groupCands ∧
    select_settings rCands
        ⟨[(frameRateKey, .range none none none (some ⟨32, 1⟩))], []⟩ .first =
      .ok (some rB) :=
  ⟨(ideal_hint_no_filtering groupCands groupIdKey
      (.value none (some (.str "group-1"))) (by decide) rfl).1,
   (ideal_hint_no_filtering rCands frameRateKey
      (.range none none none (some ⟨32, 1⟩)) (by decide) rfl).1,
   (ideal_hint_no_filtering groupCands groupIdKey
      (.sequence none (some [.str "group-1", .str "group-3"])) (by decide) rfl).1,
   (ideal_hint_no_filtering rCands frameRateKey
      (.range none none none (some ⟨32, 1⟩)) (by decide) rfl).2⟩

/-- Counterexample to claim C8: a sequence exact constraint is satisfied
by a candidate whose single actual value is merely an element of the
constraint sequence, not equal to it element-wise: candidate `b` carries
the lone value `group-1` yet satisfies exact `["group-1", "group-3"]`,
and the selection test of the repository relies on this. -/
theorem sequence_exact_elementwise_cex :
    evaluate gB groupIdKey
        (.sequence (some [.str "group-1", .str "group-3"]) none) = .satisfied ∧
    getValue gB groupIdKey = some (.str "group-1") ∧
    [Value.str "group-1"] ≠ [Value.str "group-1", Value.str "group-3"] ∧
    select_settings groupCands
        ⟨[(groupIdKey, .sequence (some [.str "group-1", .str "group-3"]) none)], []⟩
        .first = .ok (some gB) :=
  ⟨rfl, rfl, by decide, rfl⟩

/-- Claim C8 as amended: a sequence exact constraint yields Satisfied
exactly when the candidate's value for the property is present and is a
member of the constraint sequence, Missing when the property is absent,
and Mismatch when the value is present but not a member; with that
membership semantics, for each of the value, range and sequence
constraint kinds both the exact and the ideal forms select the single
matching candidate `b` out of the three distractors. -/
theorem sequence_exact_membership :
    (∀ s p seq i, evaluate s p (.sequence (some seq) i) = .satisfied ↔
      ∃ a, getValue s p = some a ∧ seq.any (valueEq a) = true) ∧
    (∀ s p seq i, getValue s p = none →
      evaluate s p (.sequence (some seq) i) = .missing) ∧
    (∀ s p seq i a, getValue s p = some a → seq.any (valueEq a) = false →
      evaluate s p (.sequence (some seq) i) = .mismatch .mismatch) ∧
    select_settings groupCands
        ⟨[(groupIdKey, .sequence (some [.str "group-1", .str "group-3"]) none)], []⟩
        .first = .ok (some gB) ∧
    select_settings groupCands
        ⟨[(groupIdKey, .sequence none (some [.str "group-1", .str "group-3"]))], []⟩
        .first = .ok (some gB) ∧
    select_settings groupCands
        ⟨[(groupIdKey, .value (some (.str "group-1")) none)], []⟩
        .first = .ok (some gB) ∧
    select_settings groupCands
        ⟨[(groupIdKey, .value none (some (.str "group-1")))], []⟩
        .first = .ok (some gB) ∧
    select_settings rCands
        ⟨[(frameRateKey, .range none none (some ⟨30, 1⟩) none)], []⟩
        .first = .ok (some rB) ∧
    select_settings rCands
        ⟨[(frameRateKey, .range none none none (some ⟨32, 1⟩))], []⟩
        .first = .ok (some rB) := by
  refine ⟨?_, ?_, ?_, rfl, rfl, rfl, rfl, rfl, rfl⟩
  · intro s p seq i
    constructor
    · intro h
      cases hg : getValue s p with
      | none => simp [evaluate, hg] at h
      | some a =>
        refine ⟨a, rfl, ?_⟩
        by_cases ha : seq.any (valueEq a) = true
        · exact ha
        · simp [evaluate, hg, ha] at h
    · rintro ⟨a, hg, ha⟩
      simp [evaluate, hg, ha]
  · intro s p seq i hg
    simp [evaluate, hg]
  · intro s p seq i a hg ha
    simp [evaluate, hg, ha]

/-- Witness for C8 as amended: candidate `a` carries `group-0`, which is
not a member of the sequence, so the verdict is a mismatch. -/
theorem sequence_exact_membership_witness :
    evaluate gA groupIdKey
        (.sequence (some [Value.str "group-1", Value.str "group-3"]) none) =
      .mismatch .mismatch :=
  sequence_exact_membership.2.2.1 gA groupIdKey
    [Value.str "group-1", Value.str "group-3"] none (Value.str "group-0") rfl rfl

/-- Claim C9: the interchange-encoded (bare-value) form of the smoke
test's constraints resolves and sanitizes to exactly the directly
constructed sanitized constraints, and both selection paths return the
same winning candidate, the 1080p one. -/
theorem cross_path_equivalence :
    to_sanitized smoke_supported (to_resolved_mandatory json_mandatory)
        (to_resolved_advanced json_advanced) =
      to_sanitized smoke_supported native_mandatory native_advanced ∧
    select_settings smoke_settings
        (to_sanitized smoke_supported native_mandatory native_advanced)
        (.ideal smoke_720p smoke_supported) = .ok (some smoke_1080p) ∧
    select_settings smoke_settings
        (to_sanitized smoke_supported (to_resolved_mandatory json_mandatory)
          (to_resolved_advanced json_advanced))
        (.ideal smoke_720p smoke_supported) = .ok (some smoke_1080p) :=
  ⟨rfl, rfl, rfl⟩

/-- Claim C10: `get_padding` returns the least amount of padding needed
to reach a multiple of 4: the result is below 4, adding it to the length
yields a multiple of 4, it is minimal among all such paddings, it is 0
exactly on multiples of 4 and `4 - len % 4` otherwise. -/
theorem get_padding_spec (len : Nat) :
    get_padding len < 4 ∧
    (len + get_padding len) % 4 = 0 ∧
    (∀ r, (len % 4 + r) % 4 = 0 → get_padding len ≤ r) ∧
    (len % 4 = 0 → get_padding len = 0) ∧
    (len % 4 ≠ 0 → get_padding len = 4 - len % 4) := by
  have hg : get_padding len = if len % 4 = 0 then 0 else 4 - len % 4 := rfl
  refine ⟨?_, ?_, ?_, ?_, ?_⟩
  · rw [hg]; split <;> omega
  · rw [hg]; split <;> omega
  · intro r hr; rw [hg]; split <;> omega
  · intro h0; rw [hg, if_pos h0]
  · intro h0; rw [hg, if_neg h0]

/-- Witness for C10 at length 7: one byte of padding is minimal. -/
theorem get_padding_spec_witness : get_padding 7 ≤ 1 ∧ get_padding 7 < 4 :=
  ⟨(get_padding_spec 7).2.2.1 1 (by decide), (get_padding_spec 7).1⟩

end WebrtcSpec
